import Mathlib

/-!
Shallow embedding of the telemetry-to-alert pipeline of the vehicle-driving
repository (RealTimeAlertService, RealTimeService, RealGPSService,
GPSTrackingService), together with theorems settling the frozen claims
about its specification.

Numeric conventions: JavaScript numbers are modelled as rationals, with
timestamps (`Date.getTime()` values) as integers in milliseconds.  Where the
code can divide by zero (JavaScript yields `Infinity`/`NaN` there), the
division is modelled by `jsDiv` below, which returns an explicit `JSNum`
with infinite and not-a-number points.  The trigonometric haversine
`calculateDistance` has no exact rational form, so functions that call it
take the distance function as an explicit parameter `dist`; every theorem
about them either holds for all `dist` or instantiates `dist` with a
concrete stand-in sharing the relevant qualitative properties.
-/

namespace VehicleDriving

/-- JavaScript `x || d` applied to an optional numeric field: both `undefined`
and `0` are falsy, so `undefined` and `0` are replaced by the default `d`.
Mirrors expressions such as `rule.conditions.tolerance || 5`. -/
def jsOrQ (x : Option ℚ) (d : ℚ) : ℚ :=
  match x with
  | none => d
  | some v => if v = 0 then d else v

/-- JavaScript `a || b` on optional string fields: `undefined` and the empty
string are falsy. -/
def jsOrStr (a b : Option String) : Option String :=
  match a with
  | none => b
  | some s => if s = "" then b else some s

/-- JavaScript `x || d` on an optional integer timestamp: `undefined` and `0`
are falsy.  Mirrors `new Date(data.timestamp || Date.now())`. -/
def jsOrInt (x : Option Int) (d : Int) : Int :=
  match x with
  | none => d
  | some v => if v = 0 then d else v

/-- One persisted row of the `alerts` table, restricted to the columns the
dedup query in `RealTimeAlertService.createAlert` reads or writes. -/
structure AlertRow where
  organizationId : String
  vehicleId : String
  alertType : String
  severity : String
  createdAt : Int
deriving DecidableEq, Repr

/-- The dedup window of `RealTimeAlertService.createAlert`:
`30 * 60 * 1000` milliseconds. -/
def dedupWindowMs : Int := 30 * 60 * 1000

/-- The duplicate check of `RealTimeAlertService.createAlert`: a stored alert
with the same `organization_id`, `vehicle_id` and `alert_type` whose
`created_at` is at or after `now - 30 min` (the query uses `gte`). -/
def isRecentDuplicate (alerts : List AlertRow) (nowMs : Int)
    (org veh ty : String) : Bool :=
  alerts.any fun a =>
    a.organizationId == org && a.vehicleId == veh && a.alertType == ty &&
      decide (nowMs - dedupWindowMs ≤ a.createdAt)

/-- `RealTimeAlertService.createAlert`: skip the candidate when a duplicate
was persisted within the window, otherwise insert one new row whose
`created_at` is the current time. -/
def createAlert (alerts : List AlertRow) (nowMs : Int)
    (org veh ty sev : String) : List AlertRow :=
  if isRecentDuplicate alerts nowMs org veh ty then alerts
  else alerts ++ [⟨org, veh, ty, sev, nowMs⟩]

theorem isRecentDuplicate_iff (alerts : List AlertRow) (nowMs : Int)
    (org veh ty : String) :
    isRecentDuplicate alerts nowMs org veh ty = true ↔
      ∃ a ∈ alerts, a.organizationId = org ∧ a.vehicleId = veh ∧
        a.alertType = ty ∧ nowMs - dedupWindowMs ≤ a.createdAt := by
  simp [isRecentDuplicate, List.any_eq_true, Bool.and_eq_true, and_assoc]

/-- C1: a candidate alert is discarded exactly when an alert with the same
organization id, vehicle id and alert type was persisted within the preceding
30 minutes; otherwise exactly one new alert row is appended; and submitting
the same candidate twice starting from an empty store persists one alert when
the second submission falls inside the window and two when it falls after the
window has expired. -/
theorem createAlert_dedup_spec (alerts : List AlertRow) (nowMs t0 t1 : Int)
    (org veh ty sev : String) :
    (createAlert alerts nowMs org veh ty sev = alerts ↔
      ∃ a ∈ alerts, a.organizationId = org ∧ a.vehicleId = veh ∧
        a.alertType = ty ∧ nowMs - dedupWindowMs ≤ a.createdAt)
    ∧ (createAlert alerts nowMs org veh ty sev = alerts ∨
        createAlert alerts nowMs org veh ty sev
          = alerts ++ [⟨org, veh, ty, sev, nowMs⟩])
    ∧ (createAlert (createAlert [] t0 org veh ty sev) t1 org veh ty sev).length
        = if t1 - dedupWindowMs ≤ t0 then 1 else 2 := by
  refine ⟨?_, ?_, ?_⟩
  · rw [← isRecentDuplicate_iff]
    unfold createAlert
    constructor
    · intro h
      by_contra hdup
      rw [if_neg (by simpa using hdup)] at h
      have := congrArg List.length h
      simp at this
    · intro h
      rw [if_pos h]
  · unfold createAlert
    split
    · exact Or.inl rfl
    · exact Or.inr rfl
  · have h0 : createAlert [] t0 org veh ty sev = [⟨org, veh, ty, sev, t0⟩] := by
      simp [createAlert, isRecentDuplicate]
    rw [h0]
    unfold createAlert
    have hdup : isRecentDuplicate [⟨org, veh, ty, sev, t0⟩] t1 org veh ty
        = decide (t1 - dedupWindowMs ≤ t0) := by
      simp [isRecentDuplicate]
    rw [hdup]
    by_cases hle : t1 - dedupWindowMs ≤ t0
    · rw [if_pos hle, if_pos (by simpa using hle)]
      rfl
    · rw [if_neg hle, if_neg (by simpa using hle)]
      rfl

/-- The violation and severity logic of
`RealTimeAlertService.checkSpeedingViolation`: candidate when
`speed > limit + tolerance` (tolerance `rule.conditions.tolerance || 5`);
severity `high` when `speed > limit + 20`, else `medium` when
`speed > limit + 10`, else `low`. -/
def checkSpeedingViolation (speedLimit : ℚ) (tolerance : Option ℚ)
    (speed : ℚ) : Option String :=
  if speedLimit + jsOrQ tolerance 5 < speed then
    some (if speedLimit + 20 < speed then "high"
          else if speedLimit + 10 < speed then "medium" else "low")
  else none

/-- C2, counterexample: with limit 35 and default tolerance 5, an event at
speed 41 does yield a candidate (41 > 35 + 5), contradicting the claim that
41 yields none; and at speed 55 (excess exactly 20) the severity is `medium`,
not `high` as the claim's `excess ≥ 20` boundary demands. -/
theorem checkSpeedingViolation_claim_cex :
    checkSpeedingViolation 35 none 41 = some "low"
    ∧ checkSpeedingViolation 35 none 55 = some "medium"
    ∧ checkSpeedingViolation 35 none 45 = some "low" := by
  refine ⟨?_, ?_, ?_⟩ <;> (simp only [checkSpeedingViolation, jsOrQ]; norm_num)

/-- C2, amended: a candidate is emitted iff `speed > limit + tolerance`
(tolerance default 5, so with limit 35 speed 40 yields none and 41 yields a
`low` candidate); severity is `high` when the excess over the limit is
strictly greater than 20, `medium` when strictly greater than 10, and `low`
otherwise (boundaries are strict, not `≥`). -/
theorem checkSpeedingViolation_spec (speedLimit : ℚ) (tolerance : Option ℚ)
    (speed : ℚ) :
    (checkSpeedingViolation speedLimit tolerance speed = none ↔
      speed ≤ speedLimit + jsOrQ tolerance 5)
    ∧ (checkSpeedingViolation speedLimit tolerance speed = some "high" ↔
      speedLimit + jsOrQ tolerance 5 < speed ∧ speedLimit + 20 < speed)
    ∧ (checkSpeedingViolation speedLimit tolerance speed = some "medium" ↔
      speedLimit + jsOrQ tolerance 5 < speed ∧ speedLimit + 10 < speed ∧
        speed ≤ speedLimit + 20)
    ∧ (checkSpeedingViolation speedLimit tolerance speed = some "low" ↔
      speedLimit + jsOrQ tolerance 5 < speed ∧ speed ≤ speedLimit + 10)
    ∧ checkSpeedingViolation 35 none 40 = none
    ∧ checkSpeedingViolation 35 none 41 = some "low"
    ∧ checkSpeedingViolation 35 none (4101 / 100) = some "low"
    ∧ checkSpeedingViolation 35 none 56 = some "high" := by
  have hconc : checkSpeedingViolation 35 none 40 = none
      ∧ checkSpeedingViolation 35 none 41 = some "low"
      ∧ checkSpeedingViolation 35 none (4101 / 100) = some "low"
      ∧ checkSpeedingViolation 35 none 56 = some "high" := by
    refine ⟨?_, ?_, ?_, ?_⟩ <;>
      (simp only [checkSpeedingViolation, jsOrQ]; norm_num)
  refine ⟨?_, ?_, ?_, ?_, hconc.1, hconc.2.1, hconc.2.2.1, hconc.2.2.2⟩ <;>
    (unfold checkSpeedingViolation;
     split_ifs <;> simp_all <;> linarith)

/-- Geometry of a geofence row: `fence_type` is `circular` (center and
radius) or `polygon` (ring of `[lng, lat]` vertex pairs, as in the code's
`polygon.coordinates[0]`, stored here as `(lng, lat)`). -/
inductive FenceGeometry where
  | circular (centerLat centerLng radius : ℚ)
  | polygon (ring : List (ℚ × ℚ))
deriving DecidableEq

/-- A geofence row, restricted to the fields `checkGeofenceViolation`
reads. -/
structure Geofence where
  name : String
  geometry : FenceGeometry
  alertOnEntry : Bool
  alertOnExit : Bool
deriving DecidableEq

/-- `RealTimeAlertService.isPointInPolygon`: ray casting over the first
coordinate ring, with `coordinates[i][0]` the longitude and
`coordinates[i][1]` the latitude; `j` is the predecessor index with
wraparound.  When the two vertex latitudes straddle the point's latitude the
denominator below is nonzero; otherwise the conjunction is already false,
mirroring the JavaScript short-circuit. -/
def isPointInPolygon (lat lng : ℚ) (ring : List (ℚ × ℚ)) : Bool :=
  (List.range ring.length).foldl
    (fun inside i =>
      let pi := ring.getD i (0, 0)
      let pj := ring.getD ((i + ring.length - 1) % ring.length) (0, 0)
      if (decide (lat < pi.2) != decide (lat < pj.2)) &&
          decide (lng < (pj.1 - pi.1) * (lat - pi.2) / (pj.2 - pi.2) + pi.1)
      then !inside else inside)
    false

/-- `RealTimeAlertService.isPointInGeofence`.  The circular branch calls the
trigonometric haversine `calculateDistance`; that real-valued function is
passed in as the parameter `dist` (arguments: lat₁ lng₁ lat₂ lng₂, metres). -/
def isPointInGeofence (dist : ℚ → ℚ → ℚ → ℚ → ℚ) (lat lng : ℚ)
    (gf : Geofence) : Bool :=
  match gf.geometry with
  | .circular clat clng r => decide (dist lat lng clat clng ≤ r)
  | .polygon ring => isPointInPolygon lat lng ring

/-- The two kinds of geofence transition alert. -/
inductive GeofenceTransition where
  | entry
  | exit
deriving DecidableEq

/-- The per-geofence body of `RealTimeAlertService.checkGeofenceViolation`
(the same logic as `RealTimeService.checkGeofences`): `recent` is the query
result over `location_updates` ordered by timestamp descending with
`limit(2)`, so after the current event is stored its head is the current
event and `recent[1]` is the immediately preceding event.  An entry alert
requires inside-now, not-inside-before and `alert_on_entry`; an exit alert
requires the converse and `alert_on_exit`; with fewer than two stored rows
(`prevLocation.length > 1` fails) nothing is emitted. -/
def checkGeofenceViolation (dist : ℚ → ℚ → ℚ → ℚ → ℚ) (gf : Geofence)
    (curLat curLng : ℚ) (recent : List (ℚ × ℚ)) : Option GeofenceTransition :=
  let isInside := isPointInGeofence dist curLat curLng gf
  match recent with
  | _ :: previous :: _ =>
    let wasInside := isPointInGeofence dist previous.1 previous.2 gf
    if isInside && !wasInside && gf.alertOnEntry then some .entry
    else if !isInside && wasInside && gf.alertOnExit then some .exit
    else none
  | _ => none

/-- C3: for any distance function and any geofence, an entry (exit) alert is
emitted iff the current event is inside (outside) the geofence, the
immediately preceding stored event was outside (inside), and the geofence's
`alert_on_entry` (`alert_on_exit`) flag is set; and when the store holds no
prior event — the vehicle's very first event, `recent` empty or a single
row — no transition alert of either kind is emitted. -/
theorem checkGeofenceViolation_spec (dist : ℚ → ℚ → ℚ → ℚ → ℚ)
    (gf : Geofence) (cur previous : ℚ × ℚ) (rest : List (ℚ × ℚ)) :
    (checkGeofenceViolation dist gf cur.1 cur.2 (cur :: previous :: rest)
        = some .entry ↔
      isPointInGeofence dist cur.1 cur.2 gf = true ∧
      isPointInGeofence dist previous.1 previous.2 gf = false ∧
      gf.alertOnEntry = true)
    ∧ (checkGeofenceViolation dist gf cur.1 cur.2 (cur :: previous :: rest)
        = some .exit ↔
      isPointInGeofence dist cur.1 cur.2 gf = false ∧
      isPointInGeofence dist previous.1 previous.2 gf = true ∧
      gf.alertOnExit = true)
    ∧ checkGeofenceViolation dist gf cur.1 cur.2 [] = none
    ∧ (∀ p : ℚ × ℚ, checkGeofenceViolation dist gf cur.1 cur.2 [p] = none) := by
  refine ⟨?_, ?_, rfl, fun p => rfl⟩ <;>
    · unfold checkGeofenceViolation
      cases hin : isPointInGeofence dist cur.1 cur.2 gf <;>
        cases hwas : isPointInGeofence dist previous.1 previous.2 gf <;>
          cases hentry : gf.alertOnEntry <;>
            cases hexit : gf.alertOnExit <;>
              simp_all

/-- A JavaScript number arising from dividing finite values: finite, an
infinity, or NaN. -/
inductive JSNum where
  | finite (q : ℚ)
  | posInf
  | negInf
  | nan
deriving DecidableEq

/-- JavaScript division of two finite numbers: `x / 0` is `Infinity` for
positive `x`, `-Infinity` for negative `x`, and `NaN` for `0 / 0`. -/
def jsDiv (a b : ℚ) : JSNum :=
  if b = 0 then
    (if a = 0 then .nan else if 0 < a then .posInf else .negInf)
  else .finite (a / b)

/-- JavaScript `x > c` for a possibly non-finite left operand: `Infinity`
exceeds every threshold, `-Infinity` none, and every comparison with `NaN`
is false. -/
def jsGt (x : JSNum) (c : ℚ) : Bool :=
  match x with
  | .finite q => decide (c < q)
  | .posInf => true
  | .negInf => false
  | .nan => false

/-- JavaScript `x < c` for a possibly non-finite left operand. -/
def jsLt (x : JSNum) (c : ℚ) : Bool :=
  match x with
  | .finite q => decide (q < c)
  | .posInf => false
  | .negInf => true
  | .nan => false

/-- One row of the `speed, timestamp` query in
`RealTimeAlertService.checkHarshDriving`. -/
structure SpeedSample where
  speed : ℚ
  timestampMs : Int
deriving DecidableEq

/-- `RealTimeAlertService.checkHarshDriving`: requires at least two stored
rows (`recentLocations.length < 2` returns early), takes the most recent row
`recentLocations[0]` as `previous`, computes
`acceleration = (curSpeed - previous.speed) / ((curTs - previous.ts)/1000)`
with JavaScript division semantics, and emits `harsh_acceleration` when the
acceleration exceeds `conditions.harshAcceleration || 8`, else
`harsh_braking` when it is below `conditions.harshBraking || -8`. -/
def checkHarshDriving (accelThreshold brakeThreshold : Option ℚ)
    (curSpeed : ℚ) (curTsMs : Int) (recent : List SpeedSample) :
    Option String :=
  match recent with
  | previous :: _ :: _ =>
    let timeDiff : ℚ := ((curTsMs : ℚ) - (previous.timestampMs : ℚ)) / 1000
    let speedDiff : ℚ := curSpeed - previous.speed
    let acceleration := jsDiv speedDiff timeDiff
    if jsGt acceleration (jsOrQ accelThreshold 8) then
      some "harsh_acceleration"
    else if jsLt acceleration (jsOrQ brakeThreshold (-8)) then
      some "harsh_braking"
    else none
  | _ => none

/-- C4: with the default thresholds and a strictly later current timestamp,
the harsh-driving rule computes acceleration `Δspeed / Δt` (in mph per
second) against the most recent prior sample and emits `harsh_acceleration`
iff it exceeds 8, `harsh_braking` iff it is below −8, and nothing otherwise;
with fewer than two stored samples it emits nothing; and concretely, speeds
40 mph then 10 mph taken 10 s apart (−3 mph/s) yield no candidate while the
same speeds 2 s apart (−15 mph/s) yield `harsh_braking`. -/
theorem checkHarshDriving_spec (curSpeed : ℚ) (curTsMs : Int)
    (previous second : SpeedSample) (rest : List SpeedSample)
    (h : previous.timestampMs < curTsMs) :
    (checkHarshDriving none none curSpeed curTsMs (previous :: second :: rest)
        = some "harsh_acceleration" ↔
      8 < (curSpeed - previous.speed) * 1000
            / ((curTsMs : ℚ) - (previous.timestampMs : ℚ)))
    ∧ (checkHarshDriving none none curSpeed curTsMs
          (previous :: second :: rest) = some "harsh_braking" ↔
      (curSpeed - previous.speed) * 1000
          / ((curTsMs : ℚ) - (previous.timestampMs : ℚ)) < -8)
    ∧ (∀ s : ℚ, ∀ t : Int, checkHarshDriving none none s t [] = none)
    ∧ (∀ s : ℚ, ∀ t : Int, ∀ p : SpeedSample,
        checkHarshDriving none none s t [p] = none)
    ∧ checkHarshDriving none none 10 10000 [⟨40, 0⟩, ⟨40, -5000⟩] = none
    ∧ checkHarshDriving none none 10 2000 [⟨40, 0⟩, ⟨40, -5000⟩]
        = some "harsh_braking" := by
  have hdt : (0 : ℚ) < (curTsMs : ℚ) - (previous.timestampMs : ℚ) := by
    rw [sub_pos]
    exact_mod_cast h
  have hdiv : jsDiv (curSpeed - previous.speed)
      (((curTsMs : ℚ) - (previous.timestampMs : ℚ)) / 1000)
      = .finite ((curSpeed - previous.speed) * 1000
          / ((curTsMs : ℚ) - (previous.timestampMs : ℚ))) := by
    rw [jsDiv, if_neg (by positivity)]
    congr 1
    rw [div_div_eq_mul_div]
  refine ⟨?_, ?_, fun s t => rfl, fun s t p => rfl, ?_, ?_⟩
  · simp only [checkHarshDriving, hdiv, jsOrQ, jsGt, jsLt]
    split_ifs with h1 h2 <;> simp_all
  · simp only [checkHarshDriving, hdiv, jsOrQ, jsGt, jsLt]
    split_ifs with h1 h2 <;> simp_all
    linarith
  · simp only [checkHarshDriving, jsDiv, jsOrQ, jsGt, jsLt]
    norm_num
  · simp only [checkHarshDriving, jsDiv, jsOrQ, jsGt, jsLt]
    norm_num

/-- C4, witness: the theorem applied at speeds 40 mph then 10 mph ten
seconds apart, where no candidate is emitted. -/
theorem checkHarshDriving_spec_witness :
    checkHarshDriving none none 10 10000 [⟨40, 0⟩, ⟨40, -5000⟩] = none :=
  (checkHarshDriving_spec 10 10000 ⟨40, 0⟩ ⟨40, -5000⟩ []
    (by norm_num)).2.2.2.2.1

/-- C10, counterexample: when the current event and the most recent prior
sample carry equal timestamps, the JavaScript division `Δspeed / 0` yields
`Infinity`, which exceeds the acceleration threshold, so a
`harsh_acceleration` candidate IS produced — the computation is neither
finite-valued nor candidate-free as the claim states. -/
theorem checkHarshDriving_zero_dt_cex :
    checkHarshDriving none none 20 1000 [⟨10, 1000⟩, ⟨5, 0⟩]
      = some "harsh_acceleration"
    ∧ checkHarshDriving none none 0 1000 [⟨10, 1000⟩, ⟨5, 0⟩]
      = some "harsh_braking" := by
  constructor <;>
    · simp only [checkHarshDriving, jsDiv, jsOrQ, jsGt, jsLt]
      norm_num

/-- C10, amended: with equal timestamps the acceleration is the JavaScript
value `Δspeed / 0` — `Infinity`, `-Infinity` or `NaN` — so the rule emits
`harsh_acceleration` whenever the current speed strictly exceeds the prior
speed, `harsh_braking` whenever it is strictly lower, and no candidate only
when the speeds are equal (every `NaN` comparison is false). -/
theorem checkHarshDriving_zero_dt_spec (th bh : Option ℚ) (s p : ℚ)
    (t : Int) (x : SpeedSample) (rest : List SpeedSample) :
    checkHarshDriving th bh s t (⟨p, t⟩ :: x :: rest)
      = if p < s then some "harsh_acceleration"
        else if s < p then some "harsh_braking" else none := by
  have hdz : ∀ a : ℚ, jsDiv a 0
      = if a = 0 then .nan else if 0 < a then .posInf else .negInf := by
    intro a
    rw [jsDiv, if_pos rfl]
  simp only [checkHarshDriving, sub_self, zero_div, hdz]
  rcases lt_trichotomy p s with hc | hc | hc
  · rw [if_neg (sub_pos.mpr hc).ne', if_pos (sub_pos.mpr hc)]
    simp [jsGt, hc]
  · subst hc
    rw [if_pos (sub_self p)]
    simp [jsGt, jsLt]
  · rw [if_neg (sub_neg.mpr hc).ne, if_neg (not_lt.mpr (sub_neg.mpr hc).le)]
    simp [jsGt, jsLt, hc, not_lt.mpr hc.le]

/-- A row of the `trips` table, restricted to the columns
`RealTimeService.updateTripData` reads or writes.  `endLat`, `endLng`,
`distanceKm` and `maxSpeed` are nullable columns. -/
structure TripRow where
  startLat : ℚ
  startLng : ℚ
  startTime : Int
  endLat : Option ℚ
  endLng : Option ℚ
  distanceKm : Option ℚ
  maxSpeed : Option ℚ
  status : String
deriving DecidableEq

/-- `RealTimeService.updateTripData`.  With an in-progress trip it writes the
event's location as the end location, sets `distance_km` to
`calculateDistance(trip.start, event) / 1000` (metres to km), and sets
`max_speed` to `Math.max(trip.max_speed || 0, event.speed)`; with no trip and
`speed > 5` it inserts a fresh in-progress trip at the event's location and
timestamp; otherwise it does nothing.  `dist` stands for the trigonometric
`calculateDistance` (lat₁ lng₁ lat₂ lng₂ ↦ metres). -/
def updateTripData (dist : ℚ → ℚ → ℚ → ℚ → ℚ) (currentTrip : Option TripRow)
    (lat lng speed : ℚ) (tsMs : Int) : Option TripRow :=
  match currentTrip with
  | some trip =>
    some { trip with
      endLat := some lat
      endLng := some lng
      distanceKm := some (dist trip.startLat trip.startLng lat lng / 1000)
      maxSpeed := some (max (jsOrQ trip.maxSpeed 0) speed) }
  | none =>
    if 5 < speed then
      some { startLat := lat, startLng := lng, startTime := tsMs,
             endLat := none, endLng := none, distanceKm := none,
             maxSpeed := some speed, status := "in_progress" }
    else none

/-- The distance the claim ascribes to a trip, written from the spec's words
for comparison: the sum of the per-leg distance deltas between consecutive
samples, in km. -/
def claimedAccumulatedKm (dist : ℚ → ℚ → ℚ → ℚ → ℚ) :
    List (ℚ × ℚ) → ℚ
  | p :: q :: rest =>
      dist p.1 p.2 q.1 q.2 / 1000 + claimedAccumulatedKm dist (q :: rest)
  | _ => 0

/-- A concrete stand-in for the haversine `calculateDistance` in closed
computations: like the haversine it is zero between identical coordinates
and positive between the distinct coordinates used below. -/
def taxiDist (lat1 lng1 lat2 lng2 : ℚ) : ℚ :=
  |lat1 - lat2| + |lng1 - lng2|

/-- C5, counterexample: a trip that starts at (0,0), drives to (1,0) and
returns to (0,0) ends with the code's `distance_km = 0` — the update writes
`dist(start, current)/1000` each time, reading no previously accumulated
value — whereas the claimed sum of deltas between consecutive samples is
`2 * dist((0,0),(1,0)) / 1000 ≠ 0` for any distance function, haversine
included, that is zero on identical points and nonzero on these distinct
ones. -/
theorem updateTripData_distance_cex :
    (updateTripData taxiDist
        (updateTripData taxiDist
          (updateTripData taxiDist none 0 0 10 0) 1 0 10 60000)
        0 0 10 120000).map (fun t => t.distanceKm) = some (some 0)
    ∧ claimedAccumulatedKm taxiDist [(0, 0), (1, 0), (0, 0)] = 2 / 1000
    ∧ (0 : ℚ) ≠ 2 / 1000 := by
  refine ⟨?_, ?_, by norm_num⟩
  · simp only [updateTripData, taxiDist, jsOrQ]
    norm_num
  · simp only [claimedAccumulatedKm, taxiDist]
    norm_num

/-- C5, amended: with no in-progress trip and speed > 5 mph a new in-progress
trip is created recording the event's location and timestamp as its start
with `max_speed` the event's speed (with speed ≤ 5 nothing happens); with an
in-progress trip the update sets the end location to the event's location and
raises `max_speed` to the running maximum — but it sets `distance_km` to the
haversine distance from the trip's START location to the current event
divided by 1000, overwriting rather than accumulating per-leg deltas. -/
theorem updateTripData_spec (dist : ℚ → ℚ → ℚ → ℚ → ℚ) (trip : TripRow)
    (lat lng speed : ℚ) (tsMs : Int) :
    (updateTripData dist (some trip) lat lng speed tsMs
      = some { trip with
          endLat := some lat
          endLng := some lng
          distanceKm := some (dist trip.startLat trip.startLng lat lng / 1000)
          maxSpeed := some (max (jsOrQ trip.maxSpeed 0) speed) })
    ∧ (∀ m : ℚ, trip.maxSpeed = some m →
        (updateTripData dist (some trip) lat lng speed tsMs).bind
          (fun t => t.maxSpeed) = some (max m speed))
    ∧ (updateTripData dist none lat lng speed tsMs
      = if 5 < speed then
          some { startLat := lat, startLng := lng, startTime := tsMs,
                 endLat := none, endLng := none, distanceKm := none,
                 maxSpeed := some speed, status := "in_progress" }
        else none) := by
  refine ⟨rfl, ?_, rfl⟩
  intro m hm
  have hj : jsOrQ (some m) 0 = m := by
    rw [jsOrQ]
    split_ifs with h0
    · rw [h0]
    · rfl
  simp [updateTripData, hm, hj]

/-- C5, witness: the amended theorem applied to a concrete in-progress trip
with prior maximum speed 3 and event speed 9. -/
theorem updateTripData_spec_witness :
    (updateTripData taxiDist
        (some ⟨0, 0, 0, none, none, none, some 3, "in_progress"⟩)
        1 1 9 5).bind (fun t => t.maxSpeed) = some (max 3 9) :=
  (updateTripData_spec taxiDist
    ⟨0, 0, 0, none, none, none, some 3, "in_progress"⟩ 1 1 9 5).2.1 3 rfl

/-- A value of the `speedLimitCache` map: the cached limit and the time it
was stored. -/
structure CacheEntry where
  limit : ℚ
  timestampMs : Int
deriving DecidableEq

/-- The cache freshness window of `RealTimeAlertService.getSpeedLimit`
(1 hour in milliseconds). -/
def speedLimitCacheMs : Int := 3600000

/-- The default speed limit returned on lookup failure (and when the
response carries no usable `maxspeed`). -/
def defaultSpeedLimit : ℚ := 35

/-- The cache key of `RealTimeAlertService.getSpeedLimit`:
`lat.toFixed(4)`, rounding the coordinate to 4 decimal places. -/
def roundTo4 (q : ℚ) : ℚ := (round (q * 10000) : ℤ) / 10000

/-- The speed-limit cache, modelled as an association list with most recent
writes at the front (lookup takes the first match, as a JS `Map` holds one
entry per key). -/
def cacheFind (cache : List ((ℚ × ℚ) × CacheEntry)) (key : ℚ × ℚ) :
    Option CacheEntry :=
  (cache.find? fun e => e.1 == key).map (fun e => e.2)

/-- `RealTimeAlertService.getSpeedLimit`: look up the cache under the
coordinate rounded to 4 decimals; return the cached limit while it is less
than 1 hour old; otherwise consult the external lookup, whose outcome is the
parameter `fetched` — `some v` for a successful fetch whose parsed limit
(default 35 when the response has no usable `maxspeed`) is `v`, cached under
the key, and `none` for a thrown error, in which case the default 35 is
returned without touching the cache.  The function is total: it always
returns a limit. -/
def getSpeedLimit (cache : List ((ℚ × ℚ) × CacheEntry)) (nowMs : Int)
    (lat lng : ℚ) (fetched : Option ℚ) :
    ℚ × List ((ℚ × ℚ) × CacheEntry) :=
  let key := (roundTo4 lat, roundTo4 lng)
  let freshHit :=
    match cacheFind cache key with
    | some e => if nowMs - e.timestampMs < speedLimitCacheMs
        then some e.limit else none
    | none => none
  match freshHit with
  | some v => (v, cache)
  | none =>
    match fetched with
    | some v => (v, (key, ⟨v, nowMs⟩) :: cache.filter (fun e => !(e.1 == key)))
    | none => (defaultSpeedLimit, cache)

theorem roundTo4_idem (q : ℚ) : roundTo4 (roundTo4 q) = roundTo4 q := by
  unfold roundTo4
  norm_num

/-- C6: the resolver never fails its caller — it always returns a limit;
its cache is keyed by the coordinate rounded to 4 decimal places, so two
coordinates rounding alike resolve identically; a cached entry strictly
younger than 1 hour is returned as-is with the cache untouched; and when the
cache misses (or the entry is stale) and the external lookup fails, the
configured default of 35 mph is returned instead of an error. -/
theorem getSpeedLimit_spec (cache : List ((ℚ × ℚ) × CacheEntry))
    (nowMs : Int) (lat lng : ℚ) (fetched : Option ℚ) :
    (getSpeedLimit cache nowMs lat lng fetched
      = getSpeedLimit cache nowMs (roundTo4 lat) (roundTo4 lng) fetched)
    ∧ (∀ e : CacheEntry,
        cacheFind cache (roundTo4 lat, roundTo4 lng) = some e →
        nowMs - e.timestampMs < speedLimitCacheMs →
        getSpeedLimit cache nowMs lat lng fetched = (e.limit, cache))
    ∧ (cacheFind cache (roundTo4 lat, roundTo4 lng) = none →
        getSpeedLimit cache nowMs lat lng none = (35, cache))
    ∧ (∀ e : CacheEntry,
        cacheFind cache (roundTo4 lat, roundTo4 lng) = some e →
        speedLimitCacheMs ≤ nowMs - e.timestampMs →
        getSpeedLimit cache nowMs lat lng none = (35, cache)) := by
  refine ⟨?_, ?_, ?_, ?_⟩
  · unfold getSpeedLimit
    rw [roundTo4_idem, roundTo4_idem]
  · intro e he hfresh
    simp only [getSpeedLimit, he, if_pos hfresh]
  · intro he
    simp only [getSpeedLimit, he]
    rfl
  · intro e he hstale
    simp only [getSpeedLimit, he, if_neg (not_lt.mpr hstale)]
    rfl

/-- C6, witness: on the empty cache with a failed lookup the resolver
returns the default 35 mph. -/
theorem getSpeedLimit_spec_witness :
    getSpeedLimit [] 0 0 0 none = (35, []) :=
  (getSpeedLimit_spec [] 0 0 0 none).2.2.1 rfl

/-- JavaScript `a || b` on two optional numeric fields where the fallback is
itself optional: `undefined` and `0` on the left fall through to `b`. -/
def jsOrOptQ (a b : Option ℚ) : Option ℚ :=
  match a with
  | none => b
  | some v => if v = 0 then b else some v

/-- A raw real-time provider payload as `RealGPSService.normalizeRealTimeData`
reads it: every field may be absent (`undefined`). -/
structure RawRealTimePayload where
  device_id : Option String
  deviceId : Option String
  vehicle_id : Option String
  vehicleId : Option String
  latitude : Option ℚ
  lat : Option ℚ
  longitude : Option ℚ
  lng : Option ℚ
  speed : Option ℚ
  heading : Option ℚ
  bearing : Option ℚ
  timestamp : Option Int
  engine_status : Option String
  fuel_level : Option ℚ
  odometer : Option ℚ
deriving DecidableEq

/-- The event produced by `RealGPSService.normalizeRealTimeData`.  Device,
vehicle and coordinate fields stay optional because the code performs no
validation: when both alternatives of a `||` chain are absent the field is
simply `undefined` in the result. -/
structure NormalizedEvent where
  deviceId : Option String
  vehicleId : Option String
  latitude : Option ℚ
  longitude : Option ℚ
  speed : ℚ
  heading : ℚ
  timestampMs : Int
  engineStatus : String
  fuelLevel : Option ℚ
  odometer : Option ℚ
deriving DecidableEq

/-- `RealGPSService.normalizeRealTimeData`: pure field mapping with JS `||`
defaults — speed and heading default to 0, the timestamp to `Date.now()`
(`nowMs`), the engine status to the string `unknown`; nothing is validated,
no error is ever produced, and the result is handed to storage, alert
processing and broadcast unconditionally (`handleRealTimeUpdate`). -/
def normalizeRealTimeData (d : RawRealTimePayload) (nowMs : Int) :
    NormalizedEvent :=
  { deviceId := jsOrStr d.device_id d.deviceId
    vehicleId := jsOrStr d.vehicle_id d.vehicleId
    latitude := jsOrOptQ d.latitude d.lat
    longitude := jsOrOptQ d.longitude d.lng
    speed := jsOrQ d.speed 0
    heading := jsOrQ d.heading (jsOrQ d.bearing 0)
    timestampMs := jsOrInt d.timestamp nowMs
    engineStatus := (jsOrStr d.engine_status (some "unknown")).getD "unknown"
    fuelLevel := d.fuel_level
    odometer := d.odometer }

/-- The payload with every field absent. -/
def emptyPayload : RawRealTimePayload :=
  ⟨none, none, none, none, none, none, none, none, none, none, none, none,
   none, none, none⟩

/-- C7, counterexample: a payload missing every required field (device id,
coordinates, timestamp) is NOT rejected — `normalizeRealTimeData` completes
it with substitute values (speed 0, heading 0, timestamp `Date.now()`,
engine status `unknown`) and undefined id/coordinate fields, and the event
proceeds downstream; no `MalformedPayload` error exists in the code. -/
theorem normalizeRealTimeData_cex :
    normalizeRealTimeData emptyPayload 123456 =
      { deviceId := none, vehicleId := none, latitude := none,
        longitude := none, speed := 0, heading := 0, timestampMs := 123456,
        engineStatus := "unknown", fuelLevel := none, odometer := none } :=
  rfl

/-- C7, amended: normalization is total and never drops an event: missing
device id or coordinates propagate as absent fields in a still-forwarded
event, a missing speed or heading becomes 0, a missing timestamp becomes the
current time, and a missing engine status becomes `unknown` — events are
completed with substitute values rather than failing with
`MalformedPayload`. -/
theorem normalizeRealTimeData_spec (d : RawRealTimePayload) (nowMs : Int) :
    (d.device_id = none → d.deviceId = none →
      (normalizeRealTimeData d nowMs).deviceId = none)
    ∧ (d.latitude = none → d.lat = none →
      (normalizeRealTimeData d nowMs).latitude = none)
    ∧ (d.speed = none → (normalizeRealTimeData d nowMs).speed = 0)
    ∧ (d.timestamp = none →
      (normalizeRealTimeData d nowMs).timestampMs = nowMs)
    ∧ (d.engine_status = none →
      (normalizeRealTimeData d nowMs).engineStatus = "unknown") := by
  refine ⟨?_, ?_, ?_, ?_, ?_⟩ <;>
    · intro h
      first
        | (intro h2; simp [normalizeRealTimeData, jsOrStr, jsOrQ, jsOrInt,
            jsOrOptQ, h, h2])
        | simp [normalizeRealTimeData, jsOrStr, jsOrQ, jsOrInt, jsOrOptQ, h]

/-- C7, witness: the amended theorem applied to the empty payload. -/
theorem normalizeRealTimeData_spec_witness :
    (normalizeRealTimeData emptyPayload 77).speed = 0 :=
  (normalizeRealTimeData_spec emptyPayload 77).2.2.1 rfl

/-- `RealTimeAlertService.checkDeviceOffline`: with threshold
`conditions.offlineThreshold || 5` minutes, a `device_offline` candidate of
severity `high` is produced when the wall-clock minutes since the event's
timestamp exceed the threshold. -/
def checkDeviceOffline (offlineThreshold : Option ℚ) (nowMs tsMs : Int) :
    Option (String × String) :=
  let threshold := jsOrQ offlineThreshold 5
  let timeSinceUpdate : ℚ := ((nowMs : ℚ) - (tsMs : ℚ)) / 60000
  if threshold < timeSinceUpdate then some ("device_offline", "high")
  else none

/-- One offline-check tick as `evaluateRule` runs it: the candidate produced
by `checkDeviceOffline` (default threshold) is submitted to `createAlert`,
which applies the 30-minute dedup before persisting. -/
def offlineTick (alerts : List AlertRow) (nowMs tsMs : Int)
    (org veh : String) : List AlertRow :=
  match checkDeviceOffline none nowMs tsMs with
  | some c => createAlert alerts nowMs org veh c.1 c.2
  | none => alerts

/-- C8, counterexample: a vehicle 6 minutes stale triggers a candidate on
the first tick, which is persisted; one minute later the next tick triggers
another candidate, but `createAlert`'s 30-minute dedup discards it, so after
two ticks exactly one alert is persisted — not one per tick as the claim
states. -/
theorem offlineTick_per_tick_cex :
    (offlineTick [] 360000 0 "org" "veh").length = 1
    ∧ (offlineTick (offlineTick [] 360000 0 "org" "veh") 420000 0
        "org" "veh").length = 1 := by
  constructor <;>
    · simp only [offlineTick, checkDeviceOffline, createAlert,
        isRecentDuplicate, jsOrQ, dedupWindowMs]
      norm_num

/-- C8, amended: every offline-check tick at which the event timestamp is
more than 5 minutes (default threshold) in the past produces exactly one
`device_offline` candidate with severity `high`, and once a fresh sample
arrives (age at most the threshold) the next tick produces none; but
persistence runs through the 30-minute dedup window, so of two stale ticks
the second adds a persisted alert only when it comes more than 30 minutes
after the first — at most one persisted alert per window, not one per
tick. -/
theorem checkDeviceOffline_spec (nowMs tsMs t1 t2 ts : Int)
    (org veh : String) (h1 : 300000 < t1 - ts) (h2 : 300000 < t2 - ts) :
    (checkDeviceOffline none nowMs tsMs = some ("device_offline", "high") ↔
      300000 < nowMs - tsMs)
    ∧ (checkDeviceOffline none nowMs tsMs = none ↔ nowMs - tsMs ≤ 300000)
    ∧ (offlineTick (offlineTick [] t1 ts org veh) t2 ts org veh).length
        = if t2 - dedupWindowMs ≤ t1 then 1 else 2 := by
  have hiff : ∀ a b : Int, ((5 : ℚ) < ((a : ℚ) - (b : ℚ)) / 60000 ↔
      300000 < a - b) := by
    intro a b
    rw [lt_div_iff₀ (by norm_num)]
    constructor
    · intro h
      have hq : (300000 : ℚ) < (a : ℚ) - (b : ℚ) := by linarith
      exact_mod_cast hq
    · intro h
      have hq : (300000 : ℚ) < (a : ℚ) - (b : ℚ) := by exact_mod_cast h
      linarith
  refine ⟨?_, ?_, ?_⟩
  · simp only [checkDeviceOffline, jsOrQ, hiff]
    split_ifs with hc
    · simp [hc]
    · simp [hc]
  · simp only [checkDeviceOffline, jsOrQ, hiff]
    split_ifs with hc
    · simp
      omega
    · simp
      omega
  · have hc1 : checkDeviceOffline none t1 ts
        = some ("device_offline", "high") := by
      simp only [checkDeviceOffline, jsOrQ, hiff]
      rw [if_pos h1]
    have hc2 : checkDeviceOffline none t2 ts
        = some ("device_offline", "high") := by
      simp only [checkDeviceOffline, jsOrQ, hiff]
      rw [if_pos h2]
    simp only [offlineTick, hc1, hc2]
    have h0 : createAlert [] t1 org veh "device_offline" "high"
        = [⟨org, veh, "device_offline", "high", t1⟩] := by
      simp [createAlert, isRecentDuplicate]
    rw [h0]
    unfold createAlert
    have hdup : isRecentDuplicate [⟨org, veh, "device_offline", "high", t1⟩]
        t2 org veh "device_offline" = decide (t2 - dedupWindowMs ≤ t1) := by
      simp [isRecentDuplicate]
    rw [hdup]
    by_cases hle : t2 - dedupWindowMs ≤ t1
    · rw [if_pos hle, if_pos (by simpa using hle)]
      rfl
    · rw [if_neg hle, if_neg (by simpa using hle)]
      rfl

/-- C8, witness: two stale ticks one minute apart, starting from an empty
store, persist exactly one alert. -/
theorem checkDeviceOffline_spec_witness :
    (offlineTick (offlineTick [] 360000 0 "org" "veh") 420000 0
      "org" "veh").length = 1 := by
  have h := (checkDeviceOffline_spec 0 0 360000 420000 0 "org" "veh"
    (by norm_num) (by norm_num)).2.2
  rw [h]
  rfl

/-- `RealTimeAlertService.checkFuelTheft`: `if (!data.fuelLevel) return;`
bails out when the fuel level is absent OR exactly 0 (both falsy); otherwise,
with at least two stored fuel rows (newest first), a `fuel_theft` candidate
of severity `critical` is produced when the drop from the most recent stored
level exceeds 20 points, the vehicle is slower than 5 mph, and fewer than 30
minutes elapsed since that stored row. -/
def checkFuelTheft (fuelLevel : Option ℚ) (speed : ℚ) (tsMs : Int)
    (recentFuel : List (ℚ × Int)) : Option String :=
  match fuelLevel with
  | none => none
  | some f =>
    if f = 0 then none
    else
      match recentFuel with
      | prevRow :: _ :: _ =>
        let fuelDrop := prevRow.1 - f
        let timeDiff : ℚ := ((tsMs : ℚ) - (prevRow.2 : ℚ)) / 60000
        if decide (20 < fuelDrop) && decide (speed < 5) &&
            decide (timeDiff < 30) then some "fuel_theft"
        else none
      | _ => none

/-- C9: an event whose fuel level is exactly 0 (or absent) produces no
fuel-theft candidate whatever the stored history, the elapsed time and the
speed — the JavaScript falsy guard `!data.fuelLevel` discards level 0 — even
though the otherwise identical scenario with the tiny nonzero level 1 (a 49
point drop from 50, one minute later, stationary) does produce the
`fuel_theft` candidate. -/
theorem checkFuelTheft_zero_spec (speed : ℚ) (tsMs : Int)
    (recentFuel : List (ℚ × Int)) :
    checkFuelTheft (some 0) speed tsMs recentFuel = none
    ∧ checkFuelTheft none speed tsMs recentFuel = none
    ∧ checkFuelTheft (some 1) 0 60000 [(50, 0), (50, -60000)]
        = some "fuel_theft" := by
  refine ⟨rfl, rfl, ?_⟩
  simp only [checkFuelTheft]
  norm_num

end VehicleDriving
